import Mathlib

/-!
Verification of the VALR TypeScript client core: the request-signing
protocol (`RequestSigner` in `src/auth/RequestSigner.ts`, re-exported from
`src/types/index.ts`) and the WebSocket session state machine
(`ValrWebSocketClient.ts`, `AccountWebSocket.ts`), together with the two
variants of the `ValrClient` constructor request interceptor.

The TypeScript code is shallowly embedded: strings are Lean `String`s,
byte sequences are `List Nat` (each entry < 256), JavaScript numbers that
hold timestamps are `Nat`, throwing functions return `Except`, and the
stateful WebSocket session is an explicit state record with one total step
function per event-loop callback.
-/

namespace Valr

/-! ## Bytes, hex encoding and UTF-8 (Node `Buffer.from(str, "utf8")`) -/

/-- Hexadecimal digit character for a value `n < 16`, lowercase. -/
def hexDigit (n : Nat) : Char :=
  if n < 10 then Char.ofNat (48 + n) else Char.ofNat (87 + n)

/-- Lowercase hexadecimal rendering of a byte list (Node `digest("hex")`). -/
def hexOfBytes (bs : List Nat) : String :=
  String.mk (bs.flatMap fun b => [hexDigit (b / 16), hexDigit (b % 16)])

/-- UTF-8 encoding of a single Unicode scalar value. -/
def utf8Char (c : Char) : List Nat :=
  let n := c.toNat
  if n < 0x80 then [n]
  else if n < 0x800 then
    [0xC0 ||| (n >>> 6), 0x80 ||| (n &&& 0x3F)]
  else if n < 0x10000 then
    [0xE0 ||| (n >>> 12), 0x80 ||| ((n >>> 6) &&& 0x3F), 0x80 ||| (n &&& 0x3F)]
  else
    [0xF0 ||| (n >>> 18), 0x80 ||| ((n >>> 12) &&& 0x3F),
     0x80 ||| ((n >>> 6) &&& 0x3F), 0x80 ||| (n &&& 0x3F)]

/-- UTF-8 bytes of a string, as Node `hmac.update(string)` consumes them. -/
def utf8 (s : String) : List Nat := s.toList.flatMap utf8Char

/-! ## SHA-512 (FIPS 180-4), on 64-bit words modelled as `Nat` mod `2^64` -/

namespace Sha512

/-- Truncate to a 64-bit word. -/
def w64 (n : Nat) : Nat := n % (2 ^ 64)

/-- Right rotation of a 64-bit word. -/
def rotr (x k : Nat) : Nat := w64 ((x >>> k) ||| (x <<< (64 - k)))

/-- Bitwise complement within 64 bits. -/
def bnot (x : Nat) : Nat := x ^^^ (2 ^ 64 - 1)

def bigSigma0 (x : Nat) : Nat := rotr x 28 ^^^ rotr x 34 ^^^ rotr x 39
def bigSigma1 (x : Nat) : Nat := rotr x 14 ^^^ rotr x 18 ^^^ rotr x 41
def smallSigma0 (x : Nat) : Nat := rotr x 1 ^^^ rotr x 8 ^^^ (x >>> 7)
def smallSigma1 (x : Nat) : Nat := rotr x 19 ^^^ rotr x 61 ^^^ (x >>> 6)
def ch (x y z : Nat) : Nat := (x &&& y) ^^^ (bnot x &&& z)
def maj (x y z : Nat) : Nat := (x &&& y) ^^^ (x &&& z) ^^^ (y &&& z)

/-- The 80 SHA-512 round constants. -/
def K : List Nat := [
  4794697086780616226, 8158064640168781261, 13096744586834688815,
  16840607885511220156, 4131703408338449720, 6480981068601479193,
  10538285296894168987, 12329834152419229976, 15566598209576043074,
  1334009975649890238, 2608012711638119052, 6128411473006802146,
  8268148722764581231, 9286055187155687089, 11230858885718282805,
  13951009754708518548, 16472876342353939154, 17275323862435702243,
  1135362057144423861, 2597628984639134821, 3308224258029322869,
  5365058923640841347, 6679025012923562964, 8573033837759648693,
  10970295158949994411, 12119686244451234320, 12683024718118986047,
  13788192230050041572, 14330467153632333762, 15395433587784984357,
  489312712824947311, 1452737877330783856, 2861767655752347644,
  3322285676063803686, 5560940570517711597, 5996557281743188959,
  7280758554555802590, 8532644243296465576, 9350256976987008742,
  10552545826968843579, 11727347734174303076, 12113106623233404929,
  14000437183269869457, 14369950271660146224, 15101387698204529176,
  15463397548674623760, 17586052441742319658, 1182934255886127544,
  1847814050463011016, 2177327727835720531, 2830643537854262169,
  3796741975233480872, 4115178125766777443, 5681478168544905931,
  6601373596472566643, 7507060721942968483, 8399075790359081724,
  8693463985226723168, 9568029438360202098, 10144078919501101548,
  10430055236837252648, 11840083180663258601, 13761210420658862357,
  14299343276471374635, 14566680578165727644, 15097957966210449927,
  16922976911328602910, 17689382322260857208, 500013540394364858,
  748580250866718886, 1242879168328830382, 1977374033974150939,
  2944078676154940804, 3659926193048069267, 4368137639120453308,
  4836135668995329356, 5532061633213252278, 6448918945643986474,
  6902733635092675308, 7801388544844847127]

/-- The eight initial hash values. -/
def H0 : List Nat := [
  7640891576956012808, 13503953896175478587, 4354685564936845355,
  11912009170470909681, 5840696475078001361, 11170449401992604703,
  2270897969802886507, 6620516959819538809]

/-- Big-endian bytes of a value, `k` bytes wide. -/
def beBytes (k n : Nat) : List Nat :=
  (List.range k).map fun i => (n >>> (8 * (k - 1 - i))) % 256

/-- Merkle–Damgård padding: append `0x80`, zero bytes, and the 128-bit
big-endian bit length, reaching a multiple of 128 bytes. -/
def padMessage (msg : List Nat) : List Nat :=
  let L := msg.length
  let padZeros := (128 - ((L + 17) % 128)) % 128
  msg ++ [0x80] ++ List.replicate padZeros 0 ++ beBytes 16 (8 * L)

/-- Group bytes into big-endian 64-bit words. -/
def words8 : List Nat → List Nat
  | b0 :: b1 :: b2 :: b3 :: b4 :: b5 :: b6 :: b7 :: rest =>
    (b0 <<< 56 ||| b1 <<< 48 ||| b2 <<< 40 ||| b3 <<< 32 |||
     b4 <<< 24 ||| b5 <<< 16 ||| b6 <<< 8 ||| b7) :: words8 rest
  | _ => []

/-- Group a word list into 16-word blocks. -/
def blocks16 : List Nat → List (List Nat)
  | w0 :: w1 :: w2 :: w3 :: w4 :: w5 :: w6 :: w7 ::
    w8 :: w9 :: w10 :: w11 :: w12 :: w13 :: w14 :: w15 :: rest =>
    [w0, w1, w2, w3, w4, w5, w6, w7, w8, w9, w10, w11, w12, w13, w14, w15]
      :: blocks16 rest
  | _ => []

/-- Extend a 16-word block to the 80-entry message schedule. -/
def schedule (block : List Nat) : Array Nat :=
  (List.range 64).foldl
    (fun w i =>
      let t := i + 16
      w.push (w64 (smallSigma1 w[t - 2]! + w[t - 7]! +
                   smallSigma0 w[t - 15]! + w[t - 16]!)))
    block.toArray

/-- Working state of the compression function. -/
structure St where
  a : Nat
  b : Nat
  c : Nat
  d : Nat
  e : Nat
  f : Nat
  g : Nat
  h : Nat
deriving Repr, DecidableEq

/-- One round of the SHA-512 compression function. -/
def round (st : St) (ki wi : Nat) : St :=
  let t1 := w64 (st.h + bigSigma1 st.e + ch st.e st.f st.g + ki + wi)
  let t2 := w64 (bigSigma0 st.a + maj st.a st.b st.c)
  ⟨w64 (t1 + t2), st.a, st.b, st.c, w64 (st.d + t1), st.e, st.f, st.g⟩

/-- Process one 16-word block into the intermediate hash (8 words). -/
def compressBlock (H : List Nat) (block : List Nat) : List Nat :=
  let w := schedule block
  let init : St := ⟨H[0]!, H[1]!, H[2]!, H[3]!, H[4]!, H[5]!, H[6]!, H[7]!⟩
  let st := (List.range 80).foldl (fun st i => round st K[i]! w[i]!) init
  [w64 (H[0]! + st.a), w64 (H[1]! + st.b), w64 (H[2]! + st.c),
   w64 (H[3]! + st.d), w64 (H[4]! + st.e), w64 (H[5]! + st.f),
   w64 (H[6]! + st.g), w64 (H[7]! + st.h)]

/-- SHA-512 digest (64 bytes) of a byte sequence. -/
def sha512 (msg : List Nat) : List Nat :=
  let final := (blocks16 (words8 (padMessage msg))).foldl compressBlock H0
  final.flatMap (beBytes 8)

end Sha512

/-- HMAC-SHA512 (Node `createHmac("sha512", key)`): block size 128 bytes,
inner pad `0x36`, outer pad `0x5c`. -/
def hmacSha512 (key msg : List Nat) : List Nat :=
  let k0 := if key.length > 128 then Sha512.sha512 key else key
  let kp := k0 ++ List.replicate (128 - k0.length) 0
  Sha512.sha512 ((kp.map fun b => b ^^^ 0x5c) ++
    Sha512.sha512 ((kp.map fun b => b ^^^ 0x36) ++ msg))

/-! ## RequestSigner (`src/auth/RequestSigner.ts`) -/

/-- Character for a decimal digit value `n < 10`. -/
def digitChar (n : Nat) : Char := Char.ofNat (48 + n)

/-- Decimal digits of `n`, most significant first (fuel-driven so the
kernel can evaluate it). -/
def natDigits : Nat → Nat → List Char
  | 0, _ => []
  | fuel + 1, n =>
    if n < 10 then [digitChar n]
    else natDigits fuel (n / 10) ++ [digitChar (n % 10)]

/-- JavaScript template-literal rendering of a nonnegative integer as a
decimal string. -/
def natDecimal (n : Nat) : String := String.mk (natDigits (n + 1) n)

/-- ASCII upper-casing of one character, as `toUpperCase` acts on the
ASCII letters appearing in HTTP verbs. -/
def upperChar (c : Char) : Char :=
  if 97 ≤ c.toNat && c.toNat ≤ 122 then Char.ofNat (c.toNat - 32) else c

/-- Model of `verb.toUpperCase()` on ASCII strings. -/
def jsToUpper (s : String) : String := String.mk (s.toList.map upperChar)

/-- Parameters of `RequestSigner.signRequest`; `body` and `subaccountId`
default to the empty string exactly as the TypeScript destructuring does. -/
structure SignRequestParams where
  apiSecret : String
  timestamp : Nat
  verb : String
  path : String
  body : String := ""
  subaccountId : String := ""

/-- The concatenated signing payload
`timestamp + verb.toUpperCase() + path + body + subaccountId`. -/
def signPayload (p : SignRequestParams) : String :=
  natDecimal p.timestamp ++ jsToUpper p.verb ++ p.path ++ p.body ++ p.subaccountId

/-- Embedding of `RequestSigner.signRequest`: hex-encoded HMAC-SHA512 of the payload,
keyed by the UTF-8 bytes of the secret. -/
def signRequest (p : SignRequestParams) : String :=
  hexOfBytes (hmacSha512 (utf8 p.apiSecret) (utf8 (signPayload p)))

/-- The distinct failure exits of `RequestSigner.validateCredentials`. -/
inductive CredErr where
  | keyEmpty
  | secretEmpty
  | keyLength
  | secretLength
  | keyHex
  | secretHex
deriving Repr, DecidableEq

/-- JavaScript `String.prototype.length`: count of UTF-16 code units. -/
def jsLength (s : String) : Nat :=
  s.toList.foldl (fun n c => n + (if c.toNat < 0x10000 then 1 else 2)) 0

/-- Membership in the character class of the regex `/^[a-f0-9]+$/i`. -/
def isHexChar (c : Char) : Bool :=
  (48 ≤ c.toNat && c.toNat ≤ 57) ||
  (97 ≤ c.toNat && c.toNat ≤ 102) ||
  (65 ≤ c.toNat && c.toNat ≤ 70)

/-- Test of the regex, anchored: nonempty and every character in the class. -/
def hexTest (s : String) : Bool :=
  !(s = "") && s.toList.all isHexChar

/-- Embedding of `RequestSigner.validateCredentials`, with the source check order:
key emptiness, secret emptiness, key length, secret length, key hex
format, secret hex format. -/
def validateCredentials (apiKey apiSecret : String) : Except CredErr Unit :=
  if apiKey = "" then .error .keyEmpty
  else if apiSecret = "" then .error .secretEmpty
  else if jsLength apiKey ≠ 64 then .error .keyLength
  else if jsLength apiSecret ≠ 64 then .error .secretLength
  else if !hexTest apiKey then .error .keyHex
  else if !hexTest apiSecret then .error .secretHex
  else .ok ()

/-! ## The `ValrClient` request interceptor and the axios transport

`ValrClient.ts` exists in two variants in the repository. The first
(src/index.ts lines 210-261) builds the final path - query string
included, unencoded, keys sorted - assigns it back to `config.url`,
deletes `config.params`, and signs that exact string. The second
(lines 449-478) signs `config.url` as-is and leaves `config.params` for
axios to serialize after signing. -/

/-- The slice of an axios request config the interceptor touches:
`url` and `params` (a JS object = association list with distinct keys;
`none` values model `null`/`undefined`). -/
structure ReqConfig where
  url : String
  params : Option (List (String × Option String))
deriving Repr, DecidableEq

/-- Lexicographic order on code points (JS default array sort on the
ASCII keys used by this client). -/
def lexLe : List Nat → List Nat → Bool
  | [], _ => true
  | _ :: _, [] => false
  | a :: as, b :: bs => if a < b then true else if b < a then false else lexLe as bs

def keyLe (a b : String) : Bool :=
  lexLe (a.toList.map Char.toNat) (b.toList.map Char.toNat)

/-- Stable insertion into a sorted list. -/
def insertLe (a : String) : List String → List String
  | [] => [a]
  | b :: bs => if keyLe a b then a :: b :: bs else b :: insertLe a bs

/-- Insertion sort (JS `Array.prototype.sort` is stable). -/
def sortKeys : List String → List String
  | [] => []
  | k :: ks => insertLe k (sortKeys ks)

/-- First-match lookup, as JS property access on the params object. -/
def lookupParam (ps : List (String × Option String)) (k : String) : Option (Option String) :=
  match ps with
  | [] => none
  | (k0, v) :: rest => if k0 = k then some v else lookupParam rest k

/-- Interleave `"&"` between query parts. -/
def joinAmp : List String → String
  | [] => ""
  | [p] => p
  | p :: ps => p ++ "&" ++ joinAmp ps

/-- The first variant's query construction: keys sorted, values raw
(no percent-encoding), `null`/`undefined` entries skipped. -/
def queryParts (ps : List (String × Option String)) : List String :=
  (sortKeys (ps.map Prod.fst)).filterMap fun k =>
    match lookupParam ps k with
    | some (some v) => some (k ++ "=" ++ v)
    | _ => none

/-- First-variant interceptor: returns the updated config and the path
string handed to `RequestSigner.signRequest`. When params are present it
folds them into `config.url` and deletes `config.params`. -/
def interceptV1 (c : ReqConfig) : ReqConfig × String :=
  match c.params with
  | none => (c, c.url)
  | some ps =>
    let parts := queryParts ps
    let url := if parts = [] then c.url else c.url ++ "?" ++ joinAmp parts
    (⟨url, none⟩, url)

/-- Second-variant interceptor: signs `config.url` unchanged and leaves
`config.params` in place. -/
def interceptV2 (c : ReqConfig) : ReqConfig × String :=
  (c, c.url)

/-- Characters axios's default param serializer leaves unencoded:
`encodeURIComponent`'s safe set plus `:$,[]` (space becomes `+`). -/
def axiosSafeChar (c : Char) : Bool :=
  let n := c.toNat
  (48 ≤ n && n ≤ 57) || (65 ≤ n && n ≤ 90) || (97 ≤ n && n ≤ 122) ||
  c ∈ ['-', '_', '.', '!', '~', '*', '(', ')', ':', '$', ',', '[', ']']

/-- Uppercase hex digit. -/
def hexDigitUpper (n : Nat) : Char :=
  if n < 10 then Char.ofNat (48 + n) else Char.ofNat (55 + n)

/-- Axios percent-encoding of one character. -/
def axiosEncodeChar (c : Char) : List Char :=
  if axiosSafeChar c then [c]
  else if c = ' ' then ['+']
  else (utf8Char c).flatMap fun b => ['%', hexDigitUpper (b / 16), hexDigitUpper (b % 16)]

def axiosEncode (s : String) : String := String.mk (s.toList.flatMap axiosEncodeChar)

/-- Axios default serialization of the params object, insertion order,
skipping `null`/`undefined`. -/
def axiosSerializeParams (ps : List (String × Option String)) : String :=
  joinAmp (ps.filterMap fun kv =>
    match kv.2 with
    | some v => some (axiosEncode kv.1 ++ "=" ++ axiosEncode v)
    | none => none)

/-- The path axios actually puts on the wire for a request config:
`config.url`, with serialized params appended after signing. -/
def axiosSentPath (c : ReqConfig) : String :=
  match c.params with
  | none => c.url
  | some ps =>
    let q := axiosSerializeParams ps
    if q = "" then c.url
    else c.url ++ (if c.url.toList.contains '?' then "&" else "?") ++ q

/-! ## A model of `JSON.parse` (the collaborator used by `handleMessage`) -/

/-- JSON values; number tokens keep their lexeme. -/
inductive Json where
  | null
  | bool (b : Bool)
  | num (lexeme : String)
  | str (s : String)
  | arr (xs : List Json)
  | obj (fields : List (String × Json))
deriving Repr

def isJsonWs (c : Char) : Bool := c = ' ' || c = '\t' || c = '\n' || c = '\r'

def skipWs : List Char → List Char
  | [] => []
  | c :: cs => if isJsonWs c then skipWs cs else c :: cs

def isDigit (c : Char) : Bool := 48 ≤ c.toNat && c.toNat ≤ 57

/-- Parse the remainder of a JSON string literal after the opening quote. -/
def parseStringRest : Nat → List Char → Option (String × List Char)
  | 0, _ => none
  | _, [] => none
  | fuel + 1, c :: cs =>
    if c = '"' then some ("", cs)
    else if c = '\\' then
      match cs with
      | [] => none
      | e :: cs2 =>
        let decoded : Option (Char × List Char) :=
          if e = '"' then some ('"', cs2)
          else if e = '\\' then some ('\\', cs2)
          else if e = '/' then some ('/', cs2)
          else if e = 'b' then some (Char.ofNat 8, cs2)
          else if e = 'f' then some (Char.ofNat 12, cs2)
          else if e = 'n' then some ('\n', cs2)
          else if e = 'r' then some ('\r', cs2)
          else if e = 't' then some ('\t', cs2)
          else none
        match decoded with
        | none => none
        | some (d, cs3) =>
          match parseStringRest fuel cs3 with
          | some (s, rest) => some (String.mk (d :: s.toList), rest)
          | none => none
    else if c.toNat < 0x20 then none
    else
      match parseStringRest fuel cs with
      | some (s, rest) => some (String.mk (c :: s.toList), rest)
      | none => none

/-- Longest prefix of characters satisfying `p`. -/
def takeWhileChars (p : Char → Bool) : List Char → List Char × List Char
  | [] => ([], [])
  | c :: cs =>
    if p c then
      let (tk, rest) := takeWhileChars p cs
      (c :: tk, rest)
    else ([], c :: cs)

/-- Parse a JSON number token (sign, digits, fraction, exponent). -/
def parseNumber (cs : List Char) : Option (String × List Char) :=
  let (neg, cs1) := match cs with
    | '-' :: rest => (['-'], rest)
    | _ => (([] : List Char), cs)
  let (intPart, cs2) := takeWhileChars isDigit cs1
  if intPart.isEmpty then none
  else
    let (frac, cs3) :=
      match cs2 with
      | '.' :: rest =>
        let (ds, r) := takeWhileChars isDigit rest
        if ds.isEmpty then (([] : List Char), cs2) else ('.' :: ds, r)
      | _ => ([], cs2)
    let (expPart, cs4) :=
      match cs3 with
      | 'e' :: rest =>
        let (sgn, r1) := match rest with
          | '+' :: r => (['+'], r) | '-' :: r => (['-'], r) | _ => (([] : List Char), rest)
        let (ds, r2) := takeWhileChars isDigit r1
        if ds.isEmpty then (([] : List Char), cs3) else ('e' :: (sgn ++ ds), r2)
      | 'E' :: rest =>
        let (sgn, r1) := match rest with
          | '+' :: r => (['+'], r) | '-' :: r => (['-'], r) | _ => (([] : List Char), rest)
        let (ds, r2) := takeWhileChars isDigit r1
        if ds.isEmpty then (([] : List Char), cs3) else ('E' :: (sgn ++ ds), r2)
      | _ => ([], cs3)
    some (String.mk (neg ++ intPart ++ frac ++ expPart), cs4)

/-- Does `pre` prefix the list, returning the remainder? -/
def stripPrefixChars (pre : List Char) (cs : List Char) : Option (List Char) :=
  match pre, cs with
  | [], rest => some rest
  | p :: ps, c :: rest => if p = c then stripPrefixChars ps rest else none
  | _ :: _, [] => none

mutual

/-- Recursive-descent JSON value parser, fuel-driven. -/
def parseValue : Nat → List Char → Option (Json × List Char)
  | 0, _ => none
  | fuel + 1, cs =>
    match skipWs cs with
    | [] => none
    | c :: rest =>
      if c = '"' then
        match parseStringRest (fuel + 1) rest with
        | some (s, r) => some (.str s, r)
        | none => none
      else if c = '[' then
        match skipWs rest with
        | ']' :: r => some (.arr [], r)
        | r => match parseElems fuel r with
          | some (xs, r2) => some (.arr xs, r2)
          | none => none
      else if c = '\x7b' then
        match skipWs rest with
        | '\x7d' :: r => some (.obj [], r)
        | r => match parseFields fuel r with
          | some (fs, r2) => some (.obj fs, r2)
          | none => none
      else if c = 't' then
        match stripPrefixChars ['r', 'u', 'e'] rest with
        | some r => some (.bool true, r)
        | none => none
      else if c = 'f' then
        match stripPrefixChars ['a', 'l', 's', 'e'] rest with
        | some r => some (.bool false, r)
        | none => none
      else if c = 'n' then
        match stripPrefixChars ['u', 'l', 'l'] rest with
        | some r => some (.null, r)
        | none => none
      else
        match parseNumber (c :: rest) with
        | some (lex, r) => some (.num lex, r)
        | none => none

/-- Array elements after `[`, at least one element expected. -/
def parseElems : Nat → List Char → Option (List Json × List Char)
  | 0, _ => none
  | fuel + 1, cs =>
    match parseValue fuel cs with
    | none => none
    | some (v, r) =>
      match skipWs r with
      | ',' :: r2 =>
        match parseElems fuel r2 with
        | some (xs, r3) => some (v :: xs, r3)
        | none => none
      | ']' :: r2 => some ([v], r2)
      | _ => none

/-- Object members after the opening brace, at least one expected. -/
def parseFields : Nat → List Char → Option (List (String × Json) × List Char)
  | 0, _ => none
  | fuel + 1, cs =>
    match skipWs cs with
    | '"' :: r =>
      match parseStringRest (fuel + 1) r with
      | none => none
      | some (k, r2) =>
        match skipWs r2 with
        | ':' :: r3 =>
          match parseValue fuel r3 with
          | none => none
          | some (v, r4) =>
            match skipWs r4 with
            | ',' :: r5 =>
              match parseFields fuel r5 with
              | some (fs, r6) => some ((k, v) :: fs, r6)
              | none => none
            | '\x7d' :: r5 => some ([(k, v)], r5)
            | _ => none
        | _ => none
    | _ => none

end

/-- Model of `JSON.parse`: parse one value and require only whitespace
after it; `none` models a thrown `SyntaxError`. -/
def jsonParse (data : String) : Option Json :=
  match parseValue (data.toList.length + 1) data.toList with
  | some (j, rest) => if skipWs rest = [] then some j else none
  | none => none

/-- Field access `message.type` on a parsed message. -/
def msgType (j : Json) : Option String :=
  match j with
  | .obj fs =>
    match fs.lookup "type" with
    | some (.str t) => some t
    | _ => none
  | _ => none

/-! ## WebSocket session state machine (`ValrWebSocketClient.ts`)

The session runs on a single event queue: the transport open / message /
error / close callbacks, the reconnect timer and the keep-alive ping
interval never run concurrently. Each callback is embedded as a function
from session state to (state, emitted events); a step relation over these
callbacks gives the reachable states. Sockets the session created but no
longer holds (`this.ws` was reassigned or cleared) are kept in `detached`
because their listeners remain attached and can still fire `handleClose`. -/

/-- The readyState constants of the `ws` transport. -/
inductive ReadyState where
  | CONNECTING
  | OPEN
  | CLOSING
  | CLOSED
deriving Repr, DecidableEq

/-- Raw `WebSocketClientConfig` (all fields optional). -/
structure WebSocketClientConfig where
  apiKey : Option String := none
  apiSecret : Option String := none
  subaccountId : Option String := none
  autoReconnect : Option Bool := none
  reconnectDelay : Option Nat := none
  maxReconnectAttempts : Option Nat := none
deriving Repr, DecidableEq

/-- Normalized configuration as the constructor stores it.
`maxReconnectAttempts = none` models `Infinity`. -/
structure Config where
  apiKey : String
  apiSecret : String
  subaccountId : String
  autoReconnect : Bool
  reconnectDelay : Nat
  maxReconnectAttempts : Option Nat
deriving Repr, DecidableEq

/-- The constructor's defaulting: `||` for strings and numbers (so `0`
falls back), `??` for the boolean flag. -/
def normalizeConfig (c : WebSocketClientConfig) : Config where
  apiKey := c.apiKey.getD ""
  apiSecret := c.apiSecret.getD ""
  subaccountId := c.subaccountId.getD ""
  autoReconnect := c.autoReconnect.getD true
  reconnectDelay :=
    match c.reconnectDelay with
    | some d => if d = 0 then 5000 else d
    | none => 5000
  maxReconnectAttempts :=
    match c.maxReconnectAttempts with
    | some m => if m = 0 then none else some m
    | none => none

/-- The guard `if (this.config.apiKey && this.config.apiSecret)`. -/
def Config.hasCreds (cfg : Config) : Bool :=
  !(cfg.apiKey = "") && !(cfg.apiSecret = "")

/-- Mutable session fields plus the bookkeeping needed to state resource
invariants: `detached` holds sockets the session created and released,
`pingTimers` counts keep-alive intervals started (the source never clears
them). -/
structure State where
  ws : Option ReadyState := none
  detached : List ReadyState := []
  isConnected : Bool := false
  isAuthenticated : Bool := false
  reconnectAttempts : Nat := 0
  reconnectTimer : Option Nat := none
  isIntentionalClose : Bool := false
  pingTimers : Nat := 0
deriving Repr, DecidableEq

/-- Session state right after the constructor. -/
def initState : State := {}

/-- Error events the session emits (`ValrWebSocketError` payloads). -/
inductive ErrMsg where
  | parseFail (detail : String)
  | notConnected
  | maxReconnect
  | transport (detail : String)
  | connectFail (detail : String)
deriving Repr, DecidableEq

/-- The literal message string of each emitted `ValrWebSocketError`. -/
def errText : ErrMsg → String
  | .parseFail d => "Failed to parse message: " ++ d
  | .notConnected => "WebSocket is not connected"
  | .maxReconnect => "Max reconnect attempts reached"
  | .transport d => d
  | .connectFail d => "Failed to connect: " ++ d

/-- Observable emissions: emitter events plus wire sends. -/
inductive Ev where
  | connected
  | authenticated
  | message (m : Json)
  | error (e : ErrMsg)
  | close (code : Nat) (reason : String)
  | disconnected
  | reconnecting (attempt : Nat)
  | typed (event : String) (m : Json)
  | sent (payload : String)
deriving Repr

/-- Embedding of `connect()`: early-returns when the held socket is OPEN or
CONNECTING; otherwise clears the intentional-close flag and replaces the
handle with a fresh CONNECTING socket (the old handle, necessarily
CLOSING or CLOSED here, goes to `detached`). -/
def connect (s : State) : State × List Ev :=
  match s.ws with
  | some .OPEN => (s, [])
  | some .CONNECTING => (s, [])
  | some r =>
    ({ s with isIntentionalClose := false, ws := some .CONNECTING,
              detached := r :: s.detached }, [])
  | none =>
    ({ s with isIntentionalClose := false, ws := some .CONNECTING }, [])

/-- Effect of `ws.close()` on a socket handle. -/
def closeHandle : ReadyState → ReadyState
  | .CLOSED => .CLOSED
  | _ => .CLOSING

/-- Embedding of `disconnect()`: set the intentional flag, clear the reconnect timer,
close and release the socket if held. -/
def disconnect (s : State) : State × List Ev :=
  match s.ws with
  | some r =>
    ({ s with isIntentionalClose := true, reconnectTimer := none,
              ws := none, detached := closeHandle r :: s.detached }, [])
  | none =>
    ({ s with isIntentionalClose := true, reconnectTimer := none }, [])

/-- Embedding of `send(message)`: throws `ValrWebSocketError` unless the held socket
is OPEN, else writes the frame. -/
def send (s : State) (data : String) : Except ErrMsg (List Ev) :=
  if s.ws = some .OPEN then .ok [.sent data] else .error .notConnected

/-- Embedding of `isOpen()`. -/
def isOpen (s : State) : Bool :=
  s.isConnected && s.ws = some .OPEN

/-- Embedding of `handleOpen()`: mark connected, reset the attempt counter, emit
`connected`; with credentials also mark authenticated, emit
`authenticated`, run the (base-class no-op) post-auth hook and start a
keep-alive interval. -/
def handleOpen (cfg : Config) (s : State) : State × List Ev :=
  if cfg.hasCreds then
    ({ s with isConnected := true, reconnectAttempts := 0,
              isAuthenticated := true, pingTimers := s.pingTimers + 1 },
     [.connected, .authenticated])
  else
    ({ s with isConnected := true, reconnectAttempts := 0 }, [.connected])

/-- The wire payload `JSON.stringify({ type: "PING" })`. -/
def pingPayload : String := "\x7b\"type\":\"PING\"\x7d"

/-- The keep-alive interval callback: sends a ping only while connected
and authenticated. The `send` inside it is NOT wrapped in a catch, so its
exception propagates (`Except.error`). -/
def pingTick (s : State) : Except ErrMsg (State × List Ev) :=
  if s.isConnected && s.isAuthenticated then
    match send s pingPayload with
    | .ok evs => .ok (s, evs)
    | .error e => .error e
  else .ok (s, [])

/-- Stand-in for the engine-specific `SyntaxError` text produced by
`JSON.parse`. -/
def syntaxErrorDetail : String := "SyntaxError: Unexpected token"

/-- Embedding of `handleMessage(data)`. The `dispatch` argument models everything the try block
runs after a successful parse - the generic `message` listeners and the
subclass `onMessage` - returning the typed events it emitted and
optionally the exception it threw. Parse failures and dispatch exceptions
both land in the catch, which emits a `Failed to parse message` error;
the state is never touched. -/
def handleMessage (dispatch : Json → List Ev × Option String)
    (s : State) (data : String) : State × List Ev :=
  match jsonParse data with
  | none => (s, [.error (.parseFail syntaxErrorDetail)])
  | some m =>
    match dispatch m with
    | (evs, none) => (s, .message m :: evs)
    | (evs, some e) => (s, (.message m :: evs) ++ [.error (.parseFail e)])

/-- Embedding of `handleError(error)`: re-emit as a `ValrWebSocketError`. -/
def handleError (s : State) (detail : String) : State × List Ev :=
  (s, [.error (.transport detail)])

/-- The test `reconnectAttempts >= this.config.maxReconnectAttempts` (false when
the budget is `Infinity`). -/
def atLimit (cfg : Config) (attempts : Nat) : Bool :=
  match cfg.maxReconnectAttempts with
  | some m => decide (m ≤ attempts)
  | none => false

/-- Embedding of `attemptReconnect()`: at the budget, emit a terminal error and stop;
otherwise bump the counter, emit `reconnecting` with the new attempt
number and schedule `connect` after `reconnectDelay`. -/
def attemptReconnect (cfg : Config) (s : State) : State × List Ev :=
  if atLimit cfg s.reconnectAttempts then (s, [.error .maxReconnect])
  else
    ({ s with reconnectAttempts := s.reconnectAttempts + 1,
              reconnectTimer := some cfg.reconnectDelay },
     [.reconnecting (s.reconnectAttempts + 1)])

/-- The update `this.isConnected = false; this.isAuthenticated = false`. -/
def closeFlags (s : State) : State :=
  { s with isConnected := false, isAuthenticated := false }

/-- Embedding of `handleClose(code, reason)`: clear both flags, emit `close` and
`disconnected`, then reconnect when the close was unintentional and
auto-reconnect is on. -/
def handleClose (cfg : Config) (s : State) (code : Nat) (reason : String) :
    State × List Ev :=
  if !s.isIntentionalClose && cfg.autoReconnect then
    ((attemptReconnect cfg (closeFlags s)).1,
     Ev.close code reason :: Ev.disconnected ::
       (attemptReconnect cfg (closeFlags s)).2)
  else (closeFlags s, [Ev.close code reason, Ev.disconnected])

/-! ### The event loop: one step per scheduled callback -/

/-- Embedding of `AccountWebSocket.onMessage`: dispatch table from `message.type` to
the typed events; unknown tags fall through silently. -/
def accountOnMessage (m : Json) : List Ev :=
  match msgType m with
  | some "ORDER_PROCESSED" => [.typed "order:processed" m]
  | some "ORDER_STATUS_UPDATE" => [.typed "order:statusUpdate" m]
  | some "BALANCE_UPDATE" => [.typed "balance:update" m]
  | some "NEW_ACCOUNT_TRADE" => [.typed "trade:new" m]
  | _ => []

/-- Scheduled callbacks of one session, as the event loop can fire them.
`detachedClose i` is the close event of a released socket whose listeners
are still attached. -/
inductive Act where
  | connect
  | disconnect
  | wsOpen
  | wsClose (code : Nat) (reason : String)
  | detachedClose (i : Nat) (code : Nat) (reason : String)
  | wsError (detail : String)
  | wsMessage (data : String)
  | timerFire
  | pingFire
deriving Repr, DecidableEq

/-- Set the `i`-th detached socket to CLOSED. -/
def markDetachedClosed (l : List ReadyState) (i : Nat) : List ReadyState :=
  l.set i .CLOSED

/-- One event-loop step. Callbacks whose trigger is absent in the current
state (an open event with no connecting socket, a timer that is not
pending, ...) cannot fire and leave the state unchanged. A `pingFire`
whose `send` throws leaves the state unchanged and emits nothing - the
exception escapes the callback (see the C9 analysis). -/
def step (cfg : Config) (s : State) : Act → State × List Ev
  | .connect => connect s
  | .disconnect => disconnect s
  | .wsOpen =>
    if s.ws = some .CONNECTING then handleOpen cfg { s with ws := some .OPEN }
    else (s, [])
  | .wsClose code reason =>
    match s.ws with
    | some .CLOSED => (s, [])
    | some _ => handleClose cfg { s with ws := some .CLOSED } code reason
    | none => (s, [])
  | .detachedClose i code reason =>
    match s.detached.get? i with
    | some .CLOSED => (s, [])
    | some _ =>
      handleClose cfg { s with detached := markDetachedClosed s.detached i } code reason
    | none => (s, [])
  | .wsError detail => if s.ws.isSome then handleError s detail else (s, [])
  | .wsMessage data =>
    if s.ws = some .OPEN then handleMessage (fun m => (accountOnMessage m, none)) s data
    else (s, [])
  | .timerFire =>
    match s.reconnectTimer with
    | some _ => connect { s with reconnectTimer := none }
    | none => (s, [])
  | .pingFire =>
    if s.pingTimers ≠ 0 then
      match pingTick s with
      | .ok r => r
      | .error _ => (s, [])
    else (s, [])

/-- Run a list of scheduled callbacks, collecting all emissions. -/
def run (cfg : Config) (s : State) : List Act → State × List Ev
  | [] => (s, [])
  | a :: acts =>
    ((run cfg (step cfg s a).1 acts).1,
     (step cfg s a).2 ++ (run cfg (step cfg s a).1 acts).2)

/-- States a session can be in after any schedule of callbacks. -/
inductive Reachable (cfg : Config) : State → Prop where
  | init : Reachable cfg initState
  | next {s : State} (a : Act) : Reachable cfg s → Reachable cfg (step cfg s a).1

/-! ### Derived notions used by the statements -/

/-- A socket is live while CONNECTING or OPEN. -/
def isLive : ReadyState → Bool
  | .CONNECTING => true
  | .OPEN => true
  | .CLOSING => false
  | .CLOSED => false

/-- Number of live transport connections the session has created and not
yet seen die: the held handle plus the released ones. -/
def liveCount (s : State) : Nat :=
  (match s.ws with
   | some r => if isLive r then 1 else 0
   | none => 0) + s.detached.countP (fun r => isLive r)

/-- Every released socket is already CLOSING or CLOSED. -/
def detachedDead (s : State) : Prop :=
  ∀ r ∈ s.detached, isLive r = false

/-- After `disconnect()`: the intentional flag is set and no reconnect
timer is pending, so no automatic reconnection can trigger. -/
def reconnectSuppressed (s : State) : Prop :=
  s.isIntentionalClose = true ∧ s.reconnectTimer = none

/-- The reconnection-protocol events: `reconnecting` and the terminal
max-attempts error. -/
def reconEv : Ev → Bool
  | .reconnecting _ => true
  | .error .maxReconnect => true
  | _ => false

/-- The dispatch the base try block runs for an `AccountWebSocket` whose
typed listeners do not throw. -/
def accountDispatch (m : Json) : List Ev × Option String :=
  (accountOnMessage m, none)

/-- The credential-shape predicate of the C3 claim: empty, wrong length,
or a character outside `[0-9a-fA-F]`. -/
def badCred (s : String) : Prop :=
  s = "" ∨ jsLength s ≠ 64 ∨ ∃ c ∈ s.toList, isHexChar c = false

/-- A credentialed session configuration (the WebSocket constructor does
not validate credential shape). -/
def cfgAuth : Config :=
  normalizeConfig { apiKey := some "key", apiSecret := some "secret" }

/-- Auto-reconnect with a budget of three attempts. -/
def cfgMax3 : Config :=
  normalizeConfig { maxReconnectAttempts := some 3 }

/-- The all-defaults configuration. -/
def defaultConfig : Config := normalizeConfig {}

/-- The schedule of the reconnect-exhaustion scenario: an initial connect
whose socket dies, then each timer-driven reconnect fails in turn. -/
def reconnectScenario : List Act :=
  [.connect, .wsClose 1006 "", .timerFire, .wsClose 1006 "",
   .timerFire, .wsClose 1006 "", .timerFire, .wsClose 1006 ""]

/-! ## Theorems -/

set_option maxRecDepth 100000

/-- C1: `RequestSigner.signRequest` returns the lowercase-hex HMAC-SHA512
digest, keyed by the secret, of `timestamp ++ upperCase verb ++ path ++
body ++ subaccountId` (body and subaccountId defaulting to the empty
string), and reproduces both published known vectors. -/
theorem signRequest_hmac_and_vectors :
    (∀ p : SignRequestParams,
      signRequest p =
        hexOfBytes (hmacSha512 (utf8 p.apiSecret)
          (utf8 (natDecimal p.timestamp ++ jsToUpper p.verb ++ p.path ++
                 p.body ++ p.subaccountId))))
    ∧ signRequest
        { apiSecret := "4961b74efac86b25cce8fbe4c9811c4c7a787b7a5996660afcc2e287ad864363",
          timestamp := 1558014486185, verb := "GET",
          path := "/v1/account/balances" } =
        "9d52c181ed69460b49307b7891f04658e938b21181173844b5018b2fe783a6d4c62b8e67a03de4d099e7437ebfabe12c56233b73c6a0cc0f7ae87e05f6289928"
    ∧ signRequest
        { apiSecret := "4961b74efac86b25cce8fbe4c9811c4c7a787b7a5996660afcc2e287ad864363",
          timestamp := 1558017528946, verb := "POST",
          path := "/v1/orders/market",
          body := "\x7b\"customerOrderId\":\"ORDER-000001\",\"pair\":\"BTCUSDC\",\"side\":\"BUY\",\"quoteAmount\":\"80000\"\x7d" } =
        "09f536e3dfdad58443f16010a97a0a21ad27486b7b8d6d4103170d885410ed77f037f1fa628474190d4f5c08ca12c1acc850901f1c2e75c6d906ec3b32b008d0" :=
  ⟨fun _ => rfl, by decide, by decide⟩

/-- C2: the first-variant interceptor makes the signed path byte-identical
to the path axios sends (it folds the query into `config.url` once and
deletes `config.params`); the second-variant interceptor signs `config.url`
without the query string, so for a request carrying params the signed and
sent paths differ. -/
theorem interceptor_signed_path_identity :
    (∀ c : ReqConfig, axiosSentPath (interceptV1 c).1 = (interceptV1 c).2)
    ∧ ((interceptV2 ⟨"/v1/account/transactionhistory",
          some [("skip", some "0"), ("limit", some "10")]⟩).2 ≠
       axiosSentPath (interceptV2 ⟨"/v1/account/transactionhistory",
          some [("skip", some "0"), ("limit", some "10")]⟩).1) := by
  constructor
  · intro c
    cases hc : c.params with
    | none => simp [interceptV1, axiosSentPath, hc]
    | some ps => simp [interceptV1, axiosSentPath, hc]
  · decide

/-- The regex test succeeds exactly on nonempty all-hex strings. -/
theorem hexTest_true (x : String) :
    hexTest x = true ↔ ¬x = "" ∧ ∀ c ∈ x.toList, isHexChar c = true := by
  simp [hexTest, List.all_eq_true]

/-- The regex test fails exactly on the empty string or in the presence
of a non-hex character. -/
theorem hexTest_false (x : String) :
    hexTest x = false ↔ x = "" ∨ ∃ c ∈ x.toList, isHexChar c = false := by
  simp [hexTest, List.all_eq_false]
  tauto

/-- C3: `validateCredentials` fails exactly when one of the two values is
empty, not of length 64, or contains a character outside `[0-9a-fA-F]`;
in particular every pair of 64-character hex strings passes. -/
theorem validateCredentials_error_iff (k s : String) :
    (∃ e, validateCredentials k s = .error e) ↔ badCred k ∨ badCred s := by
  unfold validateCredentials
  split_ifs with h1 h2 h3 h4 h5 h6
  · simp [badCred, h1]
  · simp [badCred, h2]
  · simp [badCred, h3]
  · simp [badCred, h4]
  · have hx := (hexTest_false k).mp (by revert h5; cases hexTest k <;> simp)
    constructor
    · intro _
      refine Or.inl ?_
      rcases hx with h | h
      · exact Or.inl h
      · exact Or.inr (Or.inr h)
    · intro _
      exact ⟨.keyHex, rfl⟩
  · have hx := (hexTest_false s).mp (by revert h6; cases hexTest s <;> simp)
    constructor
    · intro _
      refine Or.inr ?_
      rcases hx with h | h
      · exact Or.inl h
      · exact Or.inr (Or.inr h)
    · intro _
      exact ⟨.secretHex, rfl⟩
  · constructor
    · rintro ⟨e, he⟩
      exact absurd he (by simp)
    · rintro (hk | hs)
      · exfalso
        have hx := (hexTest_true k).mp (by revert h5; cases hexTest k <;> simp)
        rcases hk with h | h | ⟨c, hmem, hval⟩
        · exact h1 h
        · exact h3 h
        · have := hx.2 c hmem
          simp [this] at hval
      · exfalso
        have hx := (hexTest_true s).mp (by revert h6; cases hexTest s <;> simp)
        rcases hs with h | h | ⟨c, hmem, hval⟩
        · exact h2 h
        · exact h4 h
        · have := hx.2 c hmem
          simp [this] at hval

/-! ### Structural lemmas about the session callbacks -/

theorem deadList_cons {l : List ReadyState} {r : ReadyState}
    (hr : isLive r = false) (h : ∀ x ∈ l, isLive x = false) :
    ∀ x ∈ r :: l, isLive x = false := by
  intro x hx
  rcases List.mem_cons.mp hx with rfl | hx
  · exact hr
  · exact h x hx

theorem deadList_set {l : List ReadyState} (i : Nat)
    (h : ∀ x ∈ l, isLive x = false) :
    ∀ x ∈ l.set i .CLOSED, isLive x = false := by
  intro x hx
  rcases List.mem_or_eq_of_mem_set hx with hx | rfl
  · exact h x hx
  · rfl

/-- The function `handleMessage` never changes the session state. -/
theorem handleMessage_fst (d : Json → List Ev × Option String)
    (s : State) (data : String) : (handleMessage d s data).1 = s := by
  unfold handleMessage
  rcases jsonParse data with _ | m
  · rfl
  · rcases hd : d m with ⟨evs, _ | e⟩ <;> simp [hd]

/-- What `attemptReconnect` leaves untouched. -/
theorem attemptReconnect_proj (cfg : Config) (s : State) :
    (attemptReconnect cfg s).1.detached = s.detached ∧
    (attemptReconnect cfg s).1.isConnected = s.isConnected ∧
    (attemptReconnect cfg s).1.isAuthenticated = s.isAuthenticated ∧
    (attemptReconnect cfg s).1.isIntentionalClose = s.isIntentionalClose ∧
    (attemptReconnect cfg s).1.ws = s.ws := by
  unfold attemptReconnect
  split <;> simp

/-- What `handleClose` does to the state: both flags drop, everything
except the reconnect bookkeeping is untouched. -/
theorem handleClose_proj (cfg : Config) (s : State) (code : Nat) (reason : String) :
    (handleClose cfg s code reason).1.detached = s.detached ∧
    (handleClose cfg s code reason).1.isConnected = false ∧
    (handleClose cfg s code reason).1.isAuthenticated = false ∧
    (handleClose cfg s code reason).1.isIntentionalClose = s.isIntentionalClose ∧
    (handleClose cfg s code reason).1.ws = s.ws := by
  unfold handleClose
  split
  · obtain ⟨h1, h2, h3, h4, h5⟩ := attemptReconnect_proj cfg (closeFlags s)
    simp only [closeFlags] at h1 h2 h3 h4 h5
    exact ⟨h1, h2, h3, h4, h5⟩
  · simp [closeFlags]

/-- What `handleOpen` leaves untouched. -/
theorem handleOpen_proj (cfg : Config) (s : State) :
    (handleOpen cfg s).1.detached = s.detached ∧
    (handleOpen cfg s).1.isIntentionalClose = s.isIntentionalClose ∧
    (handleOpen cfg s).1.reconnectTimer = s.reconnectTimer ∧
    (handleOpen cfg s).1.ws = s.ws := by
  unfold handleOpen
  split <;> simp

/-- A successful ping tick never changes the state. -/
theorem pingTick_fst {s : State} {r : State × List Ev}
    (h : pingTick s = .ok r) : r.1 = s := by
  unfold pingTick send at h
  split at h
  · split at h
    · cases h
      rfl
    · cases h
  · cases h
    rfl

/-- The transition `connect` either keeps the released-socket list or prepends the
previously held (dead) handle. -/
theorem connect_detachedDead {s : State} (h : detachedDead s) :
    detachedDead (connect s).1 := by
  unfold connect
  rcases hw : s.ws with _ | r
  · simp only [hw]
    exact h
  · cases r with
    | CONNECTING =>
      simp only [hw]
      exact h
    | OPEN =>
      simp only [hw]
      exact h
    | CLOSING =>
      simp only [hw]
      intro x hx
      rcases List.mem_cons.mp hx with rfl | hx
      · rfl
      · exact h x hx
    | CLOSED =>
      simp only [hw]
      intro x hx
      rcases List.mem_cons.mp hx with rfl | hx
      · rfl
      · exact h x hx

/-- Every released socket stays CLOSING or CLOSED across any callback. -/
theorem detachedDead_step (cfg : Config) (s : State) (a : Act)
    (h : detachedDead s) : detachedDead (step cfg s a).1 := by
  cases a with
  | connect => exact connect_detachedDead h
  | disconnect =>
    show detachedDead (disconnect s).1
    unfold disconnect
    rcases hw : s.ws with _ | r
    · simp only [hw]
      exact h
    · simp only [hw]
      intro x hx
      rcases List.mem_cons.mp hx with rfl | hx
      · cases r <;> rfl
      · exact h x hx
  | wsOpen =>
    show detachedDead (if s.ws = some ReadyState.CONNECTING
      then handleOpen cfg { s with ws := some ReadyState.OPEN } else (s, [])).1
    split
    · intro x hx
      rw [(handleOpen_proj cfg _).1] at hx
      exact h x hx
    · exact h
  | wsClose code reason =>
    simp only [step]
    rcases hw : s.ws with _ | r
    · simp only [hw]
      exact h
    · cases r with
      | CLOSED =>
        simp only [hw]
        exact h
      | CONNECTING =>
        simp only [hw]
        intro x hx
        rw [(handleClose_proj cfg _ code reason).1] at hx
        exact h x hx
      | OPEN =>
        simp only [hw]
        intro x hx
        rw [(handleClose_proj cfg _ code reason).1] at hx
        exact h x hx
      | CLOSING =>
        simp only [hw]
        intro x hx
        rw [(handleClose_proj cfg _ code reason).1] at hx
        exact h x hx
  | detachedClose i code reason =>
    simp only [step]
    rcases hd : s.detached.get? i with _ | r
    · simp only [hd]
      exact h
    · cases r with
      | CLOSED =>
        simp only [hd]
        exact h
      | CONNECTING =>
        simp only [hd]
        intro x hx
        rw [(handleClose_proj cfg _ code reason).1] at hx
        exact deadList_set i h x hx
      | OPEN =>
        simp only [hd]
        intro x hx
        rw [(handleClose_proj cfg _ code reason).1] at hx
        exact deadList_set i h x hx
      | CLOSING =>
        simp only [hd]
        intro x hx
        rw [(handleClose_proj cfg _ code reason).1] at hx
        exact deadList_set i h x hx
  | wsError detail =>
    show detachedDead (if s.ws.isSome then handleError s detail else (s, [])).1
    split
    · exact h
    · exact h
  | wsMessage data =>
    show detachedDead (if s.ws = some ReadyState.OPEN
      then handleMessage (fun m => (accountOnMessage m, none)) s data else (s, [])).1
    split
    · intro x hx
      rw [handleMessage_fst] at hx
      exact h x hx
    · exact h
  | timerFire =>
    simp only [step]
    rcases ht : s.reconnectTimer with _ | d
    · simp only [ht]
      exact h
    · simp only [ht]
      exact connect_detachedDead (s := { s with reconnectTimer := none }) h
  | pingFire =>
    simp only [step]
    split
    · rcases hp : pingTick s with e | r
      · simp only [hp]
        exact h
      · simp only [hp]
        rw [pingTick_fst hp]
        exact h
    · exact h

/-- C4 invariant carrier: in any reachable state all released sockets are
dead, hence at most one live connection exists. -/
theorem detachedDead_reachable {cfg : Config} {s : State}
    (h : Reachable cfg s) : detachedDead s := by
  induction h with
  | init =>
    intro x hx
    simp [initState] at hx
  | next a _ ih => exact detachedDead_step cfg _ a ih

/-- C4: `connect()` is a strict no-op while the held socket is CONNECTING
or OPEN (no new transport, no flag or timer change, no events), and in
every reachable state the session owns at most one live transport
connection. -/
theorem connect_idempotent_single_connection :
    (∀ s : State, (s.ws = some .OPEN ∨ s.ws = some .CONNECTING) →
      connect s = (s, [])) ∧
    (∀ (cfg : Config) (s : State), Reachable cfg s → liveCount s ≤ 1) := by
  constructor
  · intro s hs
    unfold connect
    rcases hs with hw | hw <;> rw [hw]
  · intro cfg s h
    have hd := detachedDead_reachable h
    have hzero : s.detached.countP (fun r => isLive r) = 0 := by
      refine List.countP_eq_zero.mpr ?_
      intro x hx
      simp [hd x hx]
    unfold liveCount
    rw [hzero]
    rcases hw : s.ws with _ | r
    · simp [hw]
    · simp only [hw]
      split <;> simp

/-- Witness for C4 at concrete inputs: an OPEN-socket state is untouched
by `connect`, and the initial state owns at most one live connection. -/
theorem connect_idempotent_single_connection_witness :
    connect { ws := some ReadyState.OPEN } = ({ ws := some ReadyState.OPEN }, []) ∧
    liveCount initState ≤ 1 :=
  ⟨connect_idempotent_single_connection.1 { ws := some .OPEN } (Or.inl rfl),
   connect_idempotent_single_connection.2 defaultConfig initState Reachable.init⟩

/-- What `connect` leaves untouched. -/
theorem connect_proj (s : State) :
    (connect s).1.isConnected = s.isConnected ∧
    (connect s).1.isAuthenticated = s.isAuthenticated ∧
    (connect s).1.reconnectAttempts = s.reconnectAttempts ∧
    (connect s).1.pingTimers = s.pingTimers ∧
    (connect s).1.reconnectTimer = s.reconnectTimer := by
  unfold connect
  rcases hw : s.ws with _ | r
  · simp [hw]
  · cases r <;> simp [hw]

/-- What `disconnect` does to the flags. -/
theorem disconnect_proj (s : State) :
    (disconnect s).1.isConnected = s.isConnected ∧
    (disconnect s).1.isAuthenticated = s.isAuthenticated ∧
    (disconnect s).1.isIntentionalClose = true ∧
    (disconnect s).1.reconnectTimer = none := by
  unfold disconnect
  rcases hw : s.ws with _ | r <;> simp [hw]

/-- The transition `handleOpen` always sets `isConnected`. -/
theorem handleOpen_isConnected (cfg : Config) (s : State) :
    (handleOpen cfg s).1.isConnected = true := by
  unfold handleOpen
  split <;> rfl

/-- The `isAuthenticated → isConnected` implication survives every
callback. -/
theorem authConn_step (cfg : Config) (s : State) (a : Act)
    (h : s.isAuthenticated = true → s.isConnected = true) :
    (step cfg s a).1.isAuthenticated = true → (step cfg s a).1.isConnected = true := by
  cases a with
  | connect =>
    show (connect s).1.isAuthenticated = true → (connect s).1.isConnected = true
    rw [(connect_proj s).1, (connect_proj s).2.1]
    exact h
  | disconnect =>
    show (disconnect s).1.isAuthenticated = true → (disconnect s).1.isConnected = true
    rw [(disconnect_proj s).1, (disconnect_proj s).2.1]
    exact h
  | wsOpen =>
    simp only [step]
    split
    · intro _
      exact handleOpen_isConnected cfg _
    · exact h
  | wsClose code reason =>
    simp only [step]
    rcases hw : s.ws with _ | r
    · simp only [hw]
      exact h
    · cases r with
      | CLOSED =>
        simp only [hw]
        exact h
      | CONNECTING =>
        simp only [hw]
        rw [(handleClose_proj cfg _ code reason).2.2.1]
        simp
      | OPEN =>
        simp only [hw]
        rw [(handleClose_proj cfg _ code reason).2.2.1]
        simp
      | CLOSING =>
        simp only [hw]
        rw [(handleClose_proj cfg _ code reason).2.2.1]
        simp
  | detachedClose i code reason =>
    simp only [step]
    rcases hd : s.detached.get? i with _ | r
    · simp only [hd]
      exact h
    · cases r with
      | CLOSED =>
        simp only [hd]
        exact h
      | CONNECTING =>
        simp only [hd]
        rw [(handleClose_proj cfg _ code reason).2.2.1]
        simp
      | OPEN =>
        simp only [hd]
        rw [(handleClose_proj cfg _ code reason).2.2.1]
        simp
      | CLOSING =>
        simp only [hd]
        rw [(handleClose_proj cfg _ code reason).2.2.1]
        simp
  | wsError detail =>
    simp only [step]
    split
    · exact h
    · exact h
  | wsMessage data =>
    simp only [step]
    split
    · rw [handleMessage_fst]
      exact h
    · exact h
  | timerFire =>
    simp only [step]
    rcases ht : s.reconnectTimer with _ | d
    · simp only [ht]
      exact h
    · simp only [ht]
      rw [(connect_proj _).1, (connect_proj _).2.1]
      exact h
  | pingFire =>
    simp only [step]
    split
    · rcases hp : pingTick s with e | r
      · simp only [hp]
        exact h
      · simp only [hp]
        rw [pingTick_fst hp]
        exact h
    · exact h

/-- C5: in every reachable session state, `isAuthenticated` implies
`isConnected`; and the close handler clears both flags in the same
transition, before any of its events is emitted (the transition is a
single event-loop callback, so no state with only one flag cleared is
observable). -/
theorem authenticated_only_while_connected :
    (∀ (cfg : Config) (s : State), Reachable cfg s →
       s.isAuthenticated = true → s.isConnected = true) ∧
    (∀ (cfg : Config) (s : State) (code : Nat) (reason : String),
       (handleClose cfg s code reason).1.isConnected = false ∧
       (handleClose cfg s code reason).1.isAuthenticated = false) := by
  constructor
  · intro cfg s h
    induction h with
    | init => intro hx; cases hx
    | next a _ ih => exact authConn_step cfg _ a ih
  · intro cfg s code reason
    exact ⟨(handleClose_proj cfg s code reason).2.1,
           (handleClose_proj cfg s code reason).2.2.1⟩

/-- Witness for C5: the authenticated state reached by connect-then-open
under credentials is connected, and a concrete close clears both flags. -/
theorem authenticated_only_while_connected_witness :
    (step cfgAuth (step cfgAuth initState .connect).1 .wsOpen).1.isConnected = true ∧
    (handleClose cfgAuth { isConnected := true, isAuthenticated := true } 1000 "bye").1.isConnected = false ∧
    (handleClose cfgAuth { isConnected := true, isAuthenticated := true } 1000 "bye").1.isAuthenticated = false :=
  ⟨authenticated_only_while_connected.1 cfgAuth _
     (Reachable.next .wsOpen (Reachable.next .connect Reachable.init)) (by decide),
   (authenticated_only_while_connected.2 cfgAuth
     { isConnected := true, isAuthenticated := true } 1000 "bye").1,
   (authenticated_only_while_connected.2 cfgAuth
     { isConnected := true, isAuthenticated := true } 1000 "bye").2⟩

/-! ### Reconnect suppression after `disconnect()` (C7) -/

/-- The account dispatch table never emits a reconnection event. -/
theorem accountOnMessage_events (m : Json) (n : Nat) :
    Ev.reconnecting n ∉ accountOnMessage m := by
  unfold accountOnMessage
  split <;> simp

/-- A successful ping tick emits at most the ping frame. -/
theorem pingTick_snd {s : State} {r : State × List Ev}
    (h : pingTick s = .ok r) : r.2 = [] ∨ r.2 = [Ev.sent pingPayload] := by
  unfold pingTick send at h
  by_cases hw : s.ws = some ReadyState.OPEN
  · rw [if_pos hw] at h
    split at h
    · cases h
      right
      rfl
    · cases h
      left
      rfl
  · rw [if_neg hw] at h
    split at h
    · cases h
    · cases h
      left
      rfl

/-- With the intentional flag set, `handleClose` only clears the flags
and emits `close` and `disconnected`. -/
theorem handleClose_intentional (cfg : Config) (s : State) (code : Nat)
    (reason : String) (h : s.isIntentionalClose = true) :
    handleClose cfg s code reason =
      (closeFlags s, [Ev.close code reason, Ev.disconnected]) := by
  simp [handleClose, h]

/-- Once the intentional flag is set and no timer is pending, every
callback other than an explicit `connect` keeps it that way and emits no
`reconnecting` event. -/
theorem suppressed_step (cfg : Config) (s : State) (a : Act)
    (hne : a ≠ Act.connect) (h : reconnectSuppressed s) :
    reconnectSuppressed (step cfg s a).1 ∧
    ∀ n, Ev.reconnecting n ∉ (step cfg s a).2 := by
  obtain ⟨hI, hT⟩ := h
  cases a with
  | connect => exact absurd rfl hne
  | disconnect =>
    refine ⟨⟨(disconnect_proj s).2.2.1, (disconnect_proj s).2.2.2⟩, ?_⟩
    intro n
    show Ev.reconnecting n ∉ (disconnect s).2
    unfold disconnect
    rcases hw : s.ws with _ | r <;> simp [hw]
  | wsOpen =>
    simp only [step]
    split
    · refine ⟨⟨?_, ?_⟩, ?_⟩
      · rw [(handleOpen_proj cfg _).2.1]
        exact hI
      · rw [(handleOpen_proj cfg _).2.2.1]
        exact hT
      · intro n
        unfold handleOpen
        split <;> simp
    · exact ⟨⟨hI, hT⟩, by simp⟩
  | wsClose code reason =>
    simp only [step]
    rcases hw : s.ws with _ | r
    · simp only [hw]
      exact ⟨⟨hI, hT⟩, by simp⟩
    · cases r with
      | CLOSED =>
        simp only [hw]
        exact ⟨⟨hI, hT⟩, by simp⟩
      | CONNECTING =>
        simp only [hw]
        rw [handleClose_intentional cfg { s with ws := some ReadyState.CLOSED } code reason hI]
        exact ⟨⟨hI, hT⟩, by simp⟩
      | OPEN =>
        simp only [hw]
        rw [handleClose_intentional cfg { s with ws := some ReadyState.CLOSED } code reason hI]
        exact ⟨⟨hI, hT⟩, by simp⟩
      | CLOSING =>
        simp only [hw]
        rw [handleClose_intentional cfg { s with ws := some ReadyState.CLOSED } code reason hI]
        exact ⟨⟨hI, hT⟩, by simp⟩
  | detachedClose i code reason =>
    simp only [step]
    rcases hd : s.detached.get? i with _ | r
    · simp only [hd]
      exact ⟨⟨hI, hT⟩, by simp⟩
    · cases r with
      | CLOSED =>
        simp only [hd]
        exact ⟨⟨hI, hT⟩, by simp⟩
      | CONNECTING =>
        simp only [hd]
        rw [handleClose_intentional cfg
          { s with detached := markDetachedClosed s.detached i } code reason hI]
        exact ⟨⟨hI, hT⟩, by simp⟩
      | OPEN =>
        simp only [hd]
        rw [handleClose_intentional cfg
          { s with detached := markDetachedClosed s.detached i } code reason hI]
        exact ⟨⟨hI, hT⟩, by simp⟩
      | CLOSING =>
        simp only [hd]
        rw [handleClose_intentional cfg
          { s with detached := markDetachedClosed s.detached i } code reason hI]
        exact ⟨⟨hI, hT⟩, by simp⟩
  | wsError detail =>
    simp only [step]
    split
    · exact ⟨⟨hI, hT⟩, by intro n; simp [handleError]⟩
    · exact ⟨⟨hI, hT⟩, by simp⟩
  | wsMessage data =>
    simp only [step]
    split
    · constructor
      · rw [handleMessage_fst]
        exact ⟨hI, hT⟩
      · intro n
        unfold handleMessage
        rcases hj : jsonParse data with _ | m
        · simp only [hj]
          simp
        · simp only [hj]
          intro hmem
          rcases List.mem_cons.mp hmem with heq | hmem2
          · cases heq
          · exact accountOnMessage_events m n hmem2
    · exact ⟨⟨hI, hT⟩, by simp⟩
  | timerFire =>
    simp only [step]
    rcases ht : s.reconnectTimer with _ | d
    · simp only [ht]
      exact ⟨⟨hI, hT⟩, by simp⟩
    · rw [hT] at ht
      cases ht
  | pingFire =>
    simp only [step]
    split
    · rcases hp : pingTick s with e | r
      · simp only [hp]
        exact ⟨⟨hI, hT⟩, by simp⟩
      · simp only [hp]
        constructor
        · rw [pingTick_fst hp]
          exact ⟨hI, hT⟩
        · intro n
          rcases pingTick_snd hp with h2 | h2 <;> simp [h2]
    · exact ⟨⟨hI, hT⟩, by simp⟩

/-- Suppression survives whole schedules of non-`connect` callbacks. -/
theorem suppressed_run (cfg : Config) (acts : List Act) :
    ∀ s : State, (∀ a ∈ acts, a ≠ Act.connect) → reconnectSuppressed s →
      reconnectSuppressed (run cfg s acts).1 ∧
      ∀ n, Ev.reconnecting n ∉ (run cfg s acts).2 := by
  induction acts with
  | nil =>
    intro s _ h
    exact ⟨h, by intro n; simp [run]⟩
  | cons a acts ih =>
    intro s hne h
    have h1 := suppressed_step cfg s a (hne a (List.mem_cons_self a acts)) h
    have h2 := ih (step cfg s a).1 (fun b hb => hne b (List.mem_cons_of_mem a hb)) h1.1
    refine ⟨h2.1, ?_⟩
    intro n hmem
    rcases List.mem_append.mp hmem with hm | hm
    · exact h1.2 n hm
    · exact h2.2 n hm

/-- C7: `disconnect()` always leaves the session with the intentional
flag set and no pending reconnect timer, and from any such state any
schedule of callbacks that does not contain an explicit `connect()` keeps
it that way and never emits a `reconnecting` event (the reconnect timer
being `none`, the timer callback can never invoke `connect` either). -/
theorem disconnect_suppresses_reconnection :
    (∀ s : State, reconnectSuppressed (disconnect s).1) ∧
    (∀ (cfg : Config) (s : State) (acts : List Act),
       (∀ a ∈ acts, a ≠ Act.connect) → reconnectSuppressed s →
       reconnectSuppressed (run cfg s acts).1 ∧
       ∀ n, Ev.reconnecting n ∉ (run cfg s acts).2) := by
  constructor
  · intro s
    exact ⟨(disconnect_proj s).2.2.1, (disconnect_proj s).2.2.2⟩
  · intro cfg s acts hne h
    exact suppressed_run cfg acts s hne h

/-- Witness for C7: disconnecting an open credentialed session and then
firing a close, a detached close, a ping tick and a timer tick produces
no `reconnecting` event. -/
theorem disconnect_suppresses_reconnection_witness :
    reconnectSuppressed (disconnect { ws := some ReadyState.OPEN, isConnected := true }).1 ∧
    (reconnectSuppressed (run cfgAuth
        (disconnect { ws := some ReadyState.OPEN, isConnected := true }).1
        [.wsClose 1006 "lost", .detachedClose 0 1006 "lost", .pingFire, .timerFire]).1 ∧
     ∀ n, Ev.reconnecting n ∉ (run cfgAuth
        (disconnect { ws := some ReadyState.OPEN, isConnected := true }).1
        [.wsClose 1006 "lost", .detachedClose 0 1006 "lost", .pingFire, .timerFire]).2) :=
  ⟨disconnect_suppresses_reconnection.1 _,
   disconnect_suppresses_reconnection.2 cfgAuth _ _ (by decide)
     (disconnect_suppresses_reconnection.1 _)⟩

/-! ### The reconnection protocol (C6) -/

/-- C6: on an unintentional close with auto-reconnect on, `handleClose`
defers to `attemptReconnect`; at the budget that emits only the terminal
error and changes nothing, below it the counter is bumped, a
`reconnecting` event with the new attempt number is emitted and a timer
for `reconnectDelay` (default 5000 ms) is scheduled whose firing invokes
`connect`. Under `maxReconnectAttempts = 3` with every attempt failing,
exactly three reconnects happen, numbered 1, 2, 3, then the terminal
error. -/
theorem reconnect_protocol :
    (∀ (cfg : Config) (s : State), atLimit cfg s.reconnectAttempts = true →
       attemptReconnect cfg s = (s, [.error .maxReconnect])) ∧
    (∀ (cfg : Config) (s : State), atLimit cfg s.reconnectAttempts = false →
       attemptReconnect cfg s =
         ({ s with reconnectAttempts := s.reconnectAttempts + 1,
                   reconnectTimer := some cfg.reconnectDelay },
          [.reconnecting (s.reconnectAttempts + 1)])) ∧
    (∀ (cfg : Config) (s : State) (code : Nat) (reason : String),
       s.isIntentionalClose = false → cfg.autoReconnect = true →
       handleClose cfg s code reason =
         ((attemptReconnect cfg (closeFlags s)).1,
          Ev.close code reason :: Ev.disconnected ::
            (attemptReconnect cfg (closeFlags s)).2)) ∧
    (∀ (cfg : Config) (s : State) (d : Nat), s.reconnectTimer = some d →
       step cfg s .timerFire = connect { s with reconnectTimer := none }) ∧
    (normalizeConfig {}).reconnectDelay = 5000 ∧
    (run cfgMax3 initState reconnectScenario).2.filter reconEv =
      [.reconnecting 1, .reconnecting 2, .reconnecting 3, .error .maxReconnect] ∧
    (run cfgMax3 initState reconnectScenario).1.detached =
      [.CLOSED, .CLOSED, .CLOSED] ∧
    (run cfgMax3 initState reconnectScenario).1.ws = some .CLOSED := by
  refine ⟨?_, ?_, ?_, ?_, rfl, rfl, rfl, rfl⟩
  · intro cfg s h
    simp [attemptReconnect, h]
  · intro cfg s h
    simp [attemptReconnect, h]
  · intro cfg s code reason h1 h2
    simp [handleClose, h1, h2]
  · intro cfg s d h
    simp [step, h]

/-- Witness for C6 at concrete inputs. -/
theorem reconnect_protocol_witness :
    attemptReconnect cfgMax3 { reconnectAttempts := 3 } =
      ({ reconnectAttempts := 3 }, [.error .maxReconnect]) ∧
    attemptReconnect cfgMax3 initState =
      ({ initState with reconnectAttempts := 1, reconnectTimer := some 5000 },
       [.reconnecting 1]) ∧
    handleClose cfgMax3 { isConnected := true } 1006 "lost" =
      ((attemptReconnect cfgMax3 (closeFlags { isConnected := true })).1,
       Ev.close 1006 "lost" :: Ev.disconnected ::
         (attemptReconnect cfgMax3 (closeFlags { isConnected := true })).2) ∧
    step cfgMax3 { reconnectTimer := some 5000 } .timerFire =
      connect { reconnectTimer := none } :=
  ⟨reconnect_protocol.1 cfgMax3 { reconnectAttempts := 3 } rfl,
   reconnect_protocol.2.1 cfgMax3 initState rfl,
   reconnect_protocol.2.2.1 cfgMax3 { isConnected := true } 1006 "lost" rfl rfl,
   reconnect_protocol.2.2.2.1 cfgMax3 { reconnectTimer := some 5000 } 5000 rfl⟩

/-! ### Message handling (C8, C10) and the callback exception policy (C9) -/

/-- C8: a payload that fails to parse as JSON produces exactly one
emitted event - a parse error - and no state change at all: the state
(including `isConnected`) is returned untouched and no close or
disconnected event is produced. -/
theorem parse_failure_emits_single_error
    (dispatch : Json → List Ev × Option String) (s : State) (data : String)
    (h : jsonParse data = none) :
    handleMessage dispatch s data = (s, [.error (.parseFail syntaxErrorDetail)]) := by
  unfold handleMessage
  rw [h]

/-- Witness for C8: a non-JSON payload fed to a connected account session
leaves the state alone and emits one parse-error event. -/
theorem parse_failure_emits_single_error_witness :
    handleMessage accountDispatch { isConnected := true, ws := some ReadyState.OPEN }
      "not json" =
      ({ isConnected := true, ws := some ReadyState.OPEN },
       [.error (.parseFail syntaxErrorDetail)]) :=
  parse_failure_emits_single_error accountDispatch
    { isConnected := true, ws := some ReadyState.OPEN } "not json" rfl

/-- C9 counterexample: in the reachable state produced by
connect - open - disconnect on a credentialed session, the keep-alive
interval (started at open and never cleared) fires with `isConnected` and
`isAuthenticated` still true but the socket handle released, and the
`send` inside the un-guarded interval callback throws - the callback
propagates the exception instead of emitting an error event. -/
theorem ping_callback_propagates_exception :
    Reachable cfgAuth (run cfgAuth initState [.connect, .wsOpen, .disconnect]).1 ∧
    (run cfgAuth initState [.connect, .wsOpen, .disconnect]).1.isConnected = true ∧
    (run cfgAuth initState [.connect, .wsOpen, .disconnect]).1.isAuthenticated = true ∧
    (run cfgAuth initState [.connect, .wsOpen, .disconnect]).1.pingTimers = 1 ∧
    pingTick (run cfgAuth initState [.connect, .wsOpen, .disconnect]).1 =
      .error .notConnected :=
  ⟨Reachable.next .disconnect (Reachable.next .wsOpen
     (Reachable.next .connect Reachable.init)), rfl, rfl, rfl, rfl⟩

/-- C9 (amended): the message callback returns normally with the state
untouched for every payload and every listener behaviour, and the ping
callback throws exactly when it fires while both flags are true but the
held socket is not OPEN - which the counterexample shows happens in a
reachable state, between `disconnect()` and the close event. -/
theorem callback_exception_policy :
    (∀ (dispatch : Json → List Ev × Option String) (s : State) (data : String),
       (handleMessage dispatch s data).1 = s) ∧
    (∀ s : State,
       pingTick s = .error .notConnected ↔
       (s.isConnected = true ∧ s.isAuthenticated = true ∧ s.ws ≠ some .OPEN)) := by
  constructor
  · exact handleMessage_fst
  · intro s
    unfold pingTick send
    by_cases h1 : (s.isConnected && s.isAuthenticated) = true
    · rw [if_pos h1]
      rcases Bool.and_eq_true_iff.mp h1 with ⟨hc, ha⟩
      by_cases h2 : s.ws = some ReadyState.OPEN
      · rw [if_pos h2]
        simp [hc, ha, h2]
      · rw [if_neg h2]
        simp [hc, ha, h2]
    · rw [if_neg h1]
      constructor
      · intro hx
        cases hx
      · rintro ⟨hc, ha, _⟩
        exact absurd (by rw [hc, ha]; rfl) h1

/-- C10: when the payload parses but a listener or the typed dispatch
throws, `handleMessage` catches the exception, leaves the state
untouched, and emits after the message event a single error event whose
text begins `Failed to parse message:` - the same wording as an actual
parse failure. -/
theorem listener_exception_converted
    (dispatch : Json → List Ev × Option String) (s : State) (data : String)
    (m : Json) (evs : List Ev) (e : String)
    (hp : jsonParse data = some m) (hd : dispatch m = (evs, some e)) :
    handleMessage dispatch s data =
      (s, (Ev.message m :: evs) ++ [.error (.parseFail e)]) ∧
    errText (.parseFail e) = "Failed to parse message: " ++ e := by
  unfold handleMessage
  simp only [hp, hd]
  exact ⟨by trivial, by trivial⟩

/-- Witness for C10: a valid `BALANCE_UPDATE` message whose listener
throws is converted into a trailing parse-error event with the state
unchanged. -/
theorem listener_exception_converted_witness :
    handleMessage (fun m => (accountOnMessage m, some "Error: boom"))
      { isConnected := true, ws := some ReadyState.OPEN }
      "\x7b\"type\":\"BALANCE_UPDATE\"\x7d" =
      ({ isConnected := true, ws := some ReadyState.OPEN },
       (Ev.message (.obj [("type", .str "BALANCE_UPDATE")]) ::
         [Ev.typed "balance:update" (.obj [("type", .str "BALANCE_UPDATE")])]) ++
       [.error (.parseFail "Error: boom")]) ∧
    errText (.parseFail "Error: boom") = "Failed to parse message: " ++ "Error: boom" :=
  listener_exception_converted (fun m => (accountOnMessage m, some "Error: boom"))
    { isConnected := true, ws := some ReadyState.OPEN }
    "\x7b\"type\":\"BALANCE_UPDATE\"\x7d"
    (.obj [("type", .str "BALANCE_UPDATE")])
    [Ev.typed "balance:update" (.obj [("type", .str "BALANCE_UPDATE")])]
    "Error: boom" rfl rfl

end Valr
